import Mathlib

/-!
# Verification of the visit-form validation module (`visits/forms.py`)

A shallow embedding of the form-validation logic of the sales-visit
tracking module:

* `NewVisitForm.clean` — coordinate presence check, decimal parsing and
  round-half-up quantization to six decimal places (`newVisitClean`);
* `NewVisitForm.__init__` — the company-dependent contact-person choice
  set (`newVisitInit`);
* `UpdateVisitForm.__init__` — stage-dependent field configuration
  (`updateVisitInit`);
* `UpdateProductInterestedForm.__init__` — stage/outcome-dependent field
  configuration of the product form (`updateProductInterestedInit`).

Machine-level collaborators that are not part of the repository
(Python's `decimal.Decimal`, `int(str)`, and the form fields declared on
the models module, which is not in the sources) are modelled explicitly;
each such definition carries a comment saying what it models.
-/

/-- A finite Python `decimal.Decimal` value in sign/coefficient/exponent
form: the value denoted is `(-1)^(if sign then 1 else 0) * coeff / 10 ^ scale`.
Positive exponents are folded into the coefficient, which does not change
the value, the sign, or the result of quantizing to six places. -/
structure PyDecimal where
  sign : Bool
  coeff : Nat
  scale : Nat
deriving DecidableEq, Repr

/-- Leading sign of a Python numeric literal: `-` sets the sign, `+` is
accepted and ignored, anything else leaves the input untouched. -/
def parseSign : List Char → Bool × List Char
  | '-' :: cs => (true, cs)
  | '+' :: cs => (false, cs)
  | cs => (false, cs)

/-- Split a character list into its maximal leading run of ASCII digits
and the remainder. -/
def takeDigits : List Char → List Char × List Char
  | [] => ([], [])
  | c :: cs =>
    if c.isDigit then
      let (ds, rest) := takeDigits cs
      (c :: ds, rest)
    else ([], c :: cs)

/-- Numeric value of one ASCII digit character. -/
def digitVal (c : Char) : Nat := c.toNat - 48

/-- Numeric value of a digit string read most-significant first. -/
def digitsVal (ds : List Char) : Nat := ds.foldl (fun a c => 10 * a + digitVal c) 0

/-- Exponent suffix of a decimal literal: empty input means exponent `0`;
otherwise `e`/`E`, an optional sign and a nonempty digit run that must
exhaust the input. -/
def parseExpPart : List Char → Option Int
  | [] => some 0
  | c :: cs =>
    if c = 'e' ∨ c = 'E' then
      let (sgn, cs1) := parseSign cs
      let (ds, rest) := takeDigits cs1
      if ds.isEmpty ∨ ¬ rest.isEmpty then none
      else some (if sgn then -(digitsVal ds : Int) else (digitsVal ds : Int))
    else none

/-- Models the numeric-string acceptor of Python's `decimal.Decimal`
constructor, as invoked by `NewVisitForm.clean` via `Decimal(str(lat))`:
an optional sign, digits with an optional decimal point (at least one
digit overall), and an optional exponent.  Non-finite spellings
(`NaN`, `Infinity`), surrounding whitespace and underscore separators
are outside the model. -/
def parsePyDecimal (s : String) : Option PyDecimal :=
  let (sgn, cs0) := parseSign s.toList
  let (ip, cs1) := takeDigits cs0
  let (fp, cs2) :=
    match cs1 with
    | '.' :: rest => takeDigits rest
    | _ => ([], cs1)
  if ip.isEmpty ∧ fp.isEmpty then none
  else
    match parseExpPart cs2 with
    | none => none
    | some e =>
      let coeff := digitsVal (ip ++ fp)
      let net : Int := e - (fp.length : Int)
      if 0 ≤ net then some ⟨sgn, coeff * 10 ^ net.toNat, 0⟩
      else some ⟨sgn, coeff, (-net).toNat⟩

/-- `n / d` rounded to the nearest integer with ties rounded up, computed
as `⌊(2n + d) / 2d⌋`; applied to coefficient magnitudes this is exactly
`decimal.ROUND_HALF_UP` (ties away from zero). -/
def divRoundHalfUp (n d : Nat) : Nat := (2 * n + d) / (2 * d)

/-- Decimal digit characters of `n`, most significant first, with an
explicit fuel argument so that the recursion is structural; `n + 1` units
of fuel always suffice since `n / 10 < n` for `n ≥ 10`. -/
def decDigitsAux : Nat → Nat → List Char
  | 0, _ => []
  | fuel + 1, n =>
    if n < 10 then [Char.ofNat (48 + n)]
    else decDigitsAux fuel (n / 10) ++ [Char.ofNat (48 + n % 10)]

/-- Decimal digit characters of `n`, most significant first. -/
def decDigits (n : Nat) : List Char := decDigitsAux (n + 1) n

/-- Number of decimal digits of `n` (`1` for `0`). -/
def numDigits (n : Nat) : Nat := (decDigits n).length

/-- Models `Decimal.quantize(Decimal("0.000001"), rounding=ROUND_HALF_UP)`
under the default context (precision 28): the coefficient is rescaled to
exponent `-6`, rounding half away from zero, and the operation signals
`InvalidOperation` (here: `none`) when the resulting coefficient has more
than 28 digits. -/
def quantize6 (x : PyDecimal) : Option PyDecimal :=
  let c := if x.scale ≤ 6 then x.coeff * 10 ^ (6 - x.scale)
           else divRoundHalfUp x.coeff (10 ^ (x.scale - 6))
  if numDigits c ≤ 28 then some ⟨x.sign, c, 6⟩ else none

/-- Models `str` on a finite `Decimal` with exponent `-6`: such a value is
always printed in fixed-point form with exactly six fractional digits,
the coefficient being left-padded with zeros to at least seven digits so
that the integer part is nonempty. -/
def formatScale6 (sign : Bool) (c : Nat) : String :=
  let ds := decDigits c
  let padded := List.replicate (7 - ds.length) '0' ++ ds
  let ip := padded.take (padded.length - 6)
  let fp := padded.drop (padded.length - 6)
  (if sign then "-" else "") ++ String.mk ip ++ "." ++ String.mk fp

/-- The whole coordinate pipeline of `NewVisitForm.clean` for one present
coordinate string: `str(Decimal(str(v)).quantize(Decimal("0.000001"),
rounding=ROUND_HALF_UP))`; `none` when any step raises. -/
def normalizeCoord (s : String) : Option String :=
  (parsePyDecimal s).bind fun d =>
    (quantize6 d).map fun q => formatScale6 q.sign q.coeff

/-- Python truthiness of an optional string: `None` and the empty string
are falsy, every other string is truthy. -/
def optTruthy : Option String → Bool
  | none => false
  | some s => !s.isEmpty

/-- The two `ValidationError`s `NewVisitForm.clean` can raise. -/
inductive CleanError
  | missingLocation
  | invalidCoordinate
deriving DecidableEq, Repr

/-- Embeds `NewVisitForm.clean` (forms.py lines 62-82).  The cleaned field
values for latitude/longitude are modelled from the spec as the raw
submitted strings (`none` when the key is absent): the spec's section 4.1
requires a present-but-unparseable value to reach the `Decimal`
conversion and raise the distinct invalid-coordinate error.  `if not lat
or not lon` is a truthiness test; the `try` around both conversions maps
any failure to the invalid-coordinate error. -/
def newVisitClean (lat lon : Option String) :
    Except CleanError (String × String) :=
  if optTruthy lat && optTruthy lon then
    match normalizeCoord (lat.getD ""), normalizeCoord (lon.getD "") with
    | some la, some lo => .ok (la, lo)
    | _, _ => .error .invalidCoordinate
  else .error .missingLocation

/-! ## Form-field configuration model

`UpdateVisitForm.__init__` and `UpdateProductInterestedForm.__init__`
configure their fields by mutating `required`, `widget` and `choices`
attributes.  We model the observable per-field state and replay the
mutations in source order. -/

/-- The widget classes used in `visits/forms.py`. -/
inductive Widget
  | select
  | textInput
  | numberInput
  | checkboxInput
  | textarea
  | hiddenInput
deriving DecidableEq, Repr

/-- Observable configuration of one form field: its `required` flag, its
widget class, and (when explicitly overridden) its restricted choice
values; `choices = none` means the model-derived default choices. -/
structure FieldState where
  required : Bool
  widget : Widget
  choices : Option (List String)
deriving DecidableEq, Repr

/-- Replace the `required` flag of field `f`. -/
def setReq {α : Type} [DecidableEq α] (f : α) (b : Bool)
    (st : α → FieldState) : α → FieldState :=
  fun g => if g = f then { st g with required := b } else st g

/-- Replace the widget of field `f`. -/
def setWidget {α : Type} [DecidableEq α] (f : α) (w : Widget)
    (st : α → FieldState) : α → FieldState :=
  fun g => if g = f then { st g with widget := w } else st g

/-- Replace the choice values of field `f`. -/
def setChoices {α : Type} [DecidableEq α] (f : α) (cs : List String)
    (st : α → FieldState) : α → FieldState :=
  fun g => if g = f then { st g with choices := some cs } else st g

/-- Python truthiness of a submitted value seen by the required-field
check: absent (`none`) and empty-string values are blank. -/
def isBlank : Option String → Bool
  | none => true
  | some s => s.isEmpty

/-- The fields of `UpdateVisitForm`: every model field except the
excluded `added_by`/`created_at`/`updated_at`, as enumerated by the
form's `Meta.widgets` table. -/
inductive UVField
  | company_name
  | contact_person
  | contact_number
  | designation
  | latitude
  | longitude
  | item_discussed
  | meeting_stage
  | status
  | tag
  | client_budget
  | is_order_final
  | contract_outcome
  | contract_amount
  | reason_lost
  | is_payment_collected
deriving DecidableEq, Fintype, Repr

/-- The sixteen fields of `UpdateVisitForm`, in declaration order. -/
def UVField.all : List UVField :=
  [.company_name, .contact_person, .contact_number, .designation,
   .latitude, .longitude, .item_discussed, .meeting_stage, .status, .tag,
   .client_budget, .is_order_final, .contract_outcome, .contract_amount,
   .reason_lost, .is_payment_collected]

/-- Baseline widgets of `UpdateVisitForm` from `Meta.widgets`. -/
def uvBaseWidget : UVField → Widget
  | .company_name => .select
  | .contact_person => .select
  | .contact_number => .textInput
  | .designation => .textInput
  | .latitude => .hiddenInput
  | .longitude => .hiddenInput
  | .item_discussed => .textarea
  | .meeting_stage => .select
  | .status => .select
  | .tag => .select
  | .client_budget => .numberInput
  | .is_order_final => .checkboxInput
  | .contract_outcome => .select
  | .contract_amount => .numberInput
  | .reason_lost => .textarea
  | .is_payment_collected => .checkboxInput

/-- The five fields whose `required` flag the `for f in (...)` loop of
`UpdateVisitForm.__init__` resets to `False`. -/
def uvStageFields : List UVField :=
  [.is_order_final, .contract_outcome, .contract_amount, .reason_lost,
   .is_payment_collected]

/-- Embeds `UpdateVisitForm.__init__` (forms.py lines 131-159).
`baseReq` is the model-derived baseline `required` flag of each field
(the models module is not among the sources, so it is left abstract);
`storedOutcome` is `self.instance.contract_outcome`, the outcome stored
on the bound record (`none` when unset); `data` is the submitted payload,
which the configuration logic never consults.  Mutations are replayed in
source order: the loop forcing the five stage fields optional, then the
stage branch. -/
def updateVisitInit (baseReq : UVField → Bool) (stage : Option String)
    (storedOutcome : Option String) (data : UVField → Option String) :
    UVField → FieldState :=
  let _ := data
  let st : UVField → FieldState := fun f => ⟨baseReq f, uvBaseWidget f, none⟩
  let st := uvStageFields.foldl (fun s f => setReq f false s) st
  if stage = some "Proposal or Negotiation" then
    setWidget .is_order_final .checkboxInput st
  else if stage = some "Closing" then
    let st := setWidget .contract_outcome .select st
    let st := setChoices .contract_outcome ["Won", "Lost"] st
    let st := setReq .contract_outcome true st
    if storedOutcome = some "Won" then
      setWidget .is_payment_collected .checkboxInput
        (setWidget .contract_amount .numberInput st)
    else if storedOutcome = some "Lost" then
      setWidget .reason_lost .textarea st
    else st
  else if stage = some "Payment Followup" then
    setWidget .is_payment_collected .checkboxInput st
  else st

/-- Required-field errors of a validation pass: the fields whose
configured `required` flag is set and whose submitted value is blank,
in field-declaration order. -/
def uvRequiredErrors (st : UVField → FieldState)
    (data : UVField → Option String) : List UVField :=
  UVField.all.filter fun f => (st f).required && isBlank (data f)

/-- The fields of `UpdateProductInterestedForm`: every `ProductInterested`
model field except the excluded `visit`. -/
inductive PIField
  | product_interested
  | order_estimate
  | final_order_amount
  | payment_collected
deriving DecidableEq, Fintype, Repr

/-- The four fields of `UpdateProductInterestedForm`. -/
def PIField.all : List PIField :=
  [.product_interested, .order_estimate, .final_order_amount,
   .payment_collected]

/-- Baseline widgets of `UpdateProductInterestedForm` from `Meta.widgets`. -/
def piBaseWidget : PIField → Widget
  | .product_interested => .select
  | .order_estimate => .numberInput
  | .final_order_amount => .numberInput
  | .payment_collected => .numberInput

/-- The three numeric fields whose `required` flag the opening loop of
`UpdateProductInterestedForm.__init__` resets to `False`; modelled from
the spec as decimal-valued fields (the models module is not among the
sources). -/
def piNumericFields : List PIField :=
  [.order_estimate, .final_order_amount, .payment_collected]

/-- Embeds `UpdateProductInterestedForm.__init__` (forms.py lines
176-206).  `baseReq` is the model-derived baseline `required` flag;
`stage` and `contract_outcome` are the keyword parameters passed by the
caller.  Mutations are replayed in source order. -/
def updateProductInterestedInit (baseReq : PIField → Bool)
    (stage : Option String) (contract_outcome : Option String) :
    PIField → FieldState :=
  let st : PIField → FieldState := fun f => ⟨baseReq f, piBaseWidget f, none⟩
  let st := piNumericFields.foldl (fun s f => setReq f false s) st
  if stage = some "Proposal or Negotiation" then
    setReq .order_estimate true st
  else if stage = some "Closing" then
    if contract_outcome = some "Won" then
      setWidget .payment_collected .numberInput
        (setReq .final_order_amount true st)
    else if contract_outcome = some "Lost" then
      setWidget .payment_collected .hiddenInput
        (setWidget .final_order_amount .hiddenInput st)
    else st
  else if stage = some "Payment Followup" then
    setWidget .payment_collected .numberInput
      (setReq .payment_collected true st)
  else st

/-- Field-level validation errors of the product form: a required field
with a blank value errors, and a numeric field with a present value that
is not decimal-parseable errors (the numeric fields are modelled from
the spec as decimal-valued). -/
def piFieldErrors (st : PIField → FieldState)
    (data : PIField → Option String) : List PIField :=
  PIField.all.filter fun f =>
    ((st f).required && isBlank (data f)) ||
      (piNumericFields.contains f && !isBlank (data f) &&
        (parsePyDecimal ((data f).getD "")).isNone)

/-! ## Contact-person choice set of `NewVisitForm` -/

/-- A row of the contact directory (`CustomerContact`): its primary key,
its owning company's primary key, and the contact's name. -/
structure CustomerContact where
  id : Nat
  customer_id : Nat
  contact_name : String
deriving DecidableEq, Repr

/-- Name order on contacts, the order requested by
`order_by("contact_name")`. -/
def contactLe (a b : CustomerContact) : Prop :=
  a.contact_name ≤ b.contact_name

instance : DecidableRel contactLe := fun a b =>
  inferInstanceAs (Decidable (a.contact_name ≤ b.contact_name))

instance : IsTotal CustomerContact contactLe :=
  ⟨fun a b => le_total a.contact_name b.contact_name⟩

instance : IsTrans CustomerContact contactLe :=
  ⟨fun _ _ _ h h' => le_trans h h'⟩

/-- Parser of Python `int(str)` as used on the submitted `company_name`
value: optional surrounding ASCII whitespace, an optional sign, then a
nonempty digit run allowing single underscores between digits. -/
def isPyWhitespace (c : Char) : Bool :=
  c = ' ' ∨ c = '\t' ∨ c = '\n' ∨ c = '\r'

/-- Digit run with single underscore separators, accumulating its value;
rejects a leading or trailing underscore and doubled underscores. -/
def digitsUndAux : List Char → Nat → Option Nat
  | [], acc => some acc
  | '_' :: c :: cs, acc =>
    if c.isDigit then digitsUndAux cs (10 * acc + digitVal c) else none
  | c :: cs, acc =>
    if c.isDigit then digitsUndAux cs (10 * acc + digitVal c) else none

/-- Models Python `int(str)` (the `int(self.data.get("company_name"))`
call of `NewVisitForm.__init__`): `none` exactly when the call would
raise `ValueError`.  Non-ASCII whitespace and non-ASCII digits are
outside the model. -/
def parsePyInt (s : String) : Option Int :=
  let cs := ((s.toList.dropWhile isPyWhitespace).reverse.dropWhile
    isPyWhitespace).reverse
  let (sgn, cs1) := parseSign cs
  match cs1 with
  | [] => none
  | c :: _ =>
    if c.isDigit then
      (digitsUndAux cs1 0).map fun n =>
        if sgn then -(n : Int) else (n : Int)
    else none

/-- The observable contact-person configuration `NewVisitForm.__init__`
produces: the choice queryset and the `empty_label` prompt. -/
structure ContactChoiceConfig where
  queryset : List CustomerContact
  empty_label : String
deriving DecidableEq, Repr

/-- Embeds the contact-person logic of `NewVisitForm.__init__` (forms.py
lines 40-60).  `contacts` is the contact directory; `dataCompany` is the
submitted `company_name` value (`none` when absent); `instCompany` is
`self.instance.company_name_id` when the form is bound to a saved record
with a truthy company id, else `none`.  A truthy submitted value is
parsed with `int(...)`, a parse failure leaving `company_id = None`
(the `except ... pass`, so construction never raises and the `elif`
instance branch is skipped); a truthy resulting id filters the directory
by `customer_id` and orders it by contact name. -/
def newVisitInit (contacts : List CustomerContact)
    (dataCompany : Option String) (instCompany : Option Int) :
    ContactChoiceConfig :=
  let companyId : Option Int :=
    if optTruthy dataCompany then parsePyInt (dataCompany.getD "")
    else instCompany
  match companyId with
  | some cid =>
    if cid = 0 then ⟨[], "Select company first"⟩
    else
      ⟨(contacts.filter fun c => (c.customer_id : Int) == cid).insertionSort
        contactLe, "Select contact"⟩
  | none => ⟨[], "Select company first"⟩

/-! ## Helper lemmas -/

/-- A string accepted by the decimal parser is nonempty, hence truthy. -/
theorem parsePyDecimal_isEmpty_false (s : String) (d : PyDecimal)
    (h : parsePyDecimal s = some d) : s.isEmpty = false := by
  obtain ⟨l⟩ := s
  cases l with
  | nil => exact absurd h (by simp [parsePyDecimal, parseSign, takeDigits, parseExpPart])
  | cons c cs =>
    simp only [Bool.eq_false_iff, ne_eq, String.isEmpty_iff]
    intro hs
    cases congrArg String.data hs

/-- A string accepted by the integer parser is nonempty, hence truthy. -/
theorem parsePyInt_isEmpty_false (s : String) (n : Int)
    (h : parsePyInt s = some n) : s.isEmpty = false := by
  obtain ⟨l⟩ := s
  cases l with
  | nil => exact absurd h (by simp [parsePyInt, parseSign, isPyWhitespace])
  | cons c cs =>
    simp only [Bool.eq_false_iff, ne_eq, String.isEmpty_iff]
    intro hs
    cases congrArg String.data hs

/-- The character `Char.ofNat (48 + m)` for `m < 10` is an ASCII digit. -/
theorem digitChar_isDigit (m : Nat) (hm : m < 10) :
    (Char.ofNat (48 + m)).isDigit = true := by
  interval_cases m <;> decide

/-- Every character produced by `decDigitsAux` is an ASCII digit. -/
theorem decDigitsAux_digits (fuel : Nat) :
    ∀ n c, c ∈ decDigitsAux fuel n → c.isDigit = true := by
  induction fuel with
  | zero => intro n c hc; simp [decDigitsAux] at hc
  | succ k ih =>
    intro n c hc
    simp only [decDigitsAux] at hc
    split at hc
    · simp only [List.mem_singleton] at hc
      subst hc
      exact digitChar_isDigit n (by omega)
    · rcases List.mem_append.mp hc with h | h
      · exact ih _ _ h
      · simp only [List.mem_singleton] at h
        subst h
        exact digitChar_isDigit (n % 10) (Nat.mod_lt _ (by omega))

/-- Every character of `decDigits n` is an ASCII digit. -/
theorem decDigits_digits (n : Nat) (c : Char) (hc : c ∈ decDigits n) :
    c.isDigit = true :=
  decDigitsAux_digits (n + 1) n c hc

/-- `decDigits` never returns the empty list. -/
theorem decDigits_ne_nil (n : Nat) : decDigits n ≠ [] := by
  simp only [decDigits, decDigitsAux]
  split <;> simp

/-- Shape of the output of `formatScale6`: an integer part free of decimal
points, a point, and exactly six fractional digit characters. -/
theorem formatScale6_parts (sgn : Bool) (c : Nat) :
    ∃ ip fp : String, formatScale6 sgn c = ip ++ "." ++ fp ∧
      fp.length = 6 ∧ (∀ ch ∈ fp.data, ch.isDigit = true) ∧
      ∀ ch ∈ ip.data, ch ≠ '.' := by
  have hds : 1 ≤ (decDigits c).length :=
    List.length_pos.mpr (decDigits_ne_nil c)
  have hpadded : ∀ ch ∈ List.replicate (7 - (decDigits c).length) '0' ++
      decDigits c, ch.isDigit = true := by
    intro ch hch
    rcases List.mem_append.mp hch with h | h
    · rw [List.eq_of_mem_replicate h]; decide
    · exact decDigits_digits c ch h
  have hlen : 7 ≤ (List.replicate (7 - (decDigits c).length) '0' ++
      decDigits c).length := by
    rw [List.length_append, List.length_replicate]
    omega
  refine ⟨(if sgn then "-" else "") ++ String.mk
      ((List.replicate (7 - (decDigits c).length) '0' ++ decDigits c).take
        ((List.replicate (7 - (decDigits c).length) '0' ++
          decDigits c).length - 6)),
    String.mk ((List.replicate (7 - (decDigits c).length) '0' ++
      decDigits c).drop
        ((List.replicate (7 - (decDigits c).length) '0' ++
          decDigits c).length - 6)), ?_, ?_, ?_, ?_⟩
  · rfl
  · show (List.drop _ _).length = 6
    rw [List.length_drop]
    omega
  · intro ch hch
    exact hpadded ch (List.drop_subset _ _ hch)
  · intro ch hch
    have hch' : ch ∈ (if sgn then "-" else "").data ++
        ((List.replicate (7 - (decDigits c).length) '0' ++
          decDigits c).take _) := hch
    rcases List.mem_append.mp hch' with h | h
    · cases sgn with
      | true =>
        simp only [if_pos] at h
        have : ch = '-' := by simpa using h
        subst this; decide
      | false => simp at h
    · have hdig := hpadded ch (List.take_subset _ _ h)
      intro heq
      subst heq
      simp at hdig

/-! ## Claim theorems -/

/-- **C1.** For every submission to the new-visit form in which latitude
or longitude is missing, validation fails with the missing-location
error and never succeeds; no normalized record is produced. -/
theorem newVisitClean_missing_location (lat lon : Option String)
    (h : lat = none ∨ lon = none) :
    newVisitClean lat lon = .error .missingLocation := by
  rcases h with h | h <;> subst h
  · rfl
  · cases lat with
    | none => rfl
    | some s => simp [newVisitClean, optTruthy]

/-- Witness for C1 at a concrete input. -/
theorem newVisitClean_missing_location_witness :
    ((none : Option String) = none ∨ (some "1.5" : Option String) = none) ∧
      newVisitClean none (some "1.5") = .error .missingLocation :=
  ⟨Or.inl rfl, newVisitClean_missing_location none (some "1.5") (Or.inl rfl)⟩

/-- **C2, counterexample.** The string `"1e22"` parses as a decimal, yet
validation of the pair does not succeed: quantizing `1e22` to six places
needs a 29-digit coefficient, which exceeds the default context precision
of 28, so the conversion raises and the form reports the
invalid-coordinate error. -/
theorem newVisitClean_precision_counterexample :
    (parsePyDecimal "1e22").isSome = true ∧
      newVisitClean (some "1e22") (some "1e22") =
        .error .invalidCoordinate := ⟨rfl, rfl⟩

/-- **C2, amended.** For every latitude/longitude pair that parses as a
finite decimal and whose round-half-up quantization to six places stays
within the 28-significant-digit context precision, validation succeeds
and the normalized output for each coordinate is a string with exactly
six fractional digits, computed by round-half-up quantization; in
particular input `12.1234565` normalizes to `12.123457` and input
`12.1234564` normalizes to `12.123456`. -/
theorem newVisitClean_quantizes (lat lon : String) (dla dlo qla qlo : PyDecimal)
    (hla : parsePyDecimal lat = some dla) (hlo : parsePyDecimal lon = some dlo)
    (hqa : quantize6 dla = some qla) (hqo : quantize6 dlo = some qlo) :
    newVisitClean (some lat) (some lon) =
      .ok (formatScale6 qla.sign qla.coeff, formatScale6 qlo.sign qlo.coeff) ∧
    (∃ ip fp : String, formatScale6 qla.sign qla.coeff = ip ++ "." ++ fp ∧
      fp.length = 6 ∧ (∀ ch ∈ fp.data, ch.isDigit = true) ∧
      ∀ ch ∈ ip.data, ch ≠ '.') ∧
    (∃ ip fp : String, formatScale6 qlo.sign qlo.coeff = ip ++ "." ++ fp ∧
      fp.length = 6 ∧ (∀ ch ∈ fp.data, ch.isDigit = true) ∧
      ∀ ch ∈ ip.data, ch ≠ '.') ∧
    newVisitClean (some "12.1234565") (some "12.1234564") =
      .ok ("12.123457", "12.123456") := by
  refine ⟨?_, formatScale6_parts _ _, formatScale6_parts _ _, rfl⟩
  have hea := parsePyDecimal_isEmpty_false lat dla hla
  have heo := parsePyDecimal_isEmpty_false lon dlo hlo
  simp [newVisitClean, optTruthy, hea, heo, normalizeCoord, hla, hlo, hqa, hqo]

/-- Witness for C2 at the two concrete inputs named by the claim. -/
theorem newVisitClean_quantizes_witness :
    newVisitClean (some "12.1234565") (some "12.1234564") =
      .ok (formatScale6 false 12123457, formatScale6 false 12123456) ∧
    (∃ ip fp : String, formatScale6 false 12123457 = ip ++ "." ++ fp ∧
      fp.length = 6 ∧ (∀ ch ∈ fp.data, ch.isDigit = true) ∧
      ∀ ch ∈ ip.data, ch ≠ '.') ∧
    (∃ ip fp : String, formatScale6 false 12123456 = ip ++ "." ++ fp ∧
      fp.length = 6 ∧ (∀ ch ∈ fp.data, ch.isDigit = true) ∧
      ∀ ch ∈ ip.data, ch ≠ '.') ∧
    newVisitClean (some "12.1234565") (some "12.1234564") =
      .ok ("12.123457", "12.123456") :=
  newVisitClean_quantizes "12.1234565" "12.1234564"
    ⟨false, 121234565, 7⟩ ⟨false, 121234564, 7⟩
    ⟨false, 12123457, 6⟩ ⟨false, 12123456, 6⟩ rfl rfl rfl rfl

/-- **C4, counterexample.** A submission whose latitude is present but
unparseable while longitude is absent fails with the missing-location
error, not the invalid-coordinate error: the presence check runs first. -/
theorem newVisitClean_invalid_counterexample :
    parsePyDecimal "abc" = none ∧
      newVisitClean (some "abc") none = .error .missingLocation ∧
      CleanError.missingLocation ≠ CleanError.invalidCoordinate :=
  ⟨rfl, rfl, by decide⟩

/-- **C4, amended.** For every new-visit submission in which both
coordinates are present and nonempty and at least one is not parseable
as a decimal, validation fails with the invalid-coordinate error, a
validation error distinct from the missing-location error raised for
absent coordinates. -/
theorem newVisitClean_invalid_coordinate (lat lon : String)
    (hla : lat.isEmpty = false) (hlo : lon.isEmpty = false)
    (h : parsePyDecimal lat = none ∨ parsePyDecimal lon = none) :
    newVisitClean (some lat) (some lon) = .error .invalidCoordinate ∧
      CleanError.invalidCoordinate ≠ CleanError.missingLocation := by
  refine ⟨?_, by decide⟩
  rcases h with h | h
  · simp [newVisitClean, optTruthy, hla, hlo, normalizeCoord, h]
  · rcases hx : normalizeCoord lat with _ | v <;>
      simp [newVisitClean, optTruthy, hla, hlo, normalizeCoord, h, hx]

/-- Witness for C4 at a concrete input. -/
theorem newVisitClean_invalid_coordinate_witness :
    newVisitClean (some "abc") (some "1.0") = .error .invalidCoordinate ∧
      CleanError.invalidCoordinate ≠ CleanError.missingLocation :=
  newVisitClean_invalid_coordinate "abc" "1.0" rfl rfl (Or.inl rfl)

/-- **C9, counterexample.** A submission in which both coordinates are
the string `"0"` — a value equal to zero — validates successfully and
normalizes to `0.000000`; it is not treated as missing, because the
cleaned values are nonempty strings and nonempty strings are truthy. -/
theorem newVisitClean_zero_counterexample :
    newVisitClean (some "0") (some "0") = .ok ("0.000000", "0.000000") := rfl

/-- **C9, amended.** The presence check of the new-visit form is a
truthiness test rather than a `None` test: a coordinate supplied as the
empty string is treated as missing and the submission fails with the
missing-location error even though the coordinate was supplied, while a
zero-valued coordinate string such as `"0"` is truthy and validates
successfully. -/
theorem newVisitClean_truthiness (lon : Option String) :
    newVisitClean (some "") lon = .error .missingLocation ∧
      newVisitClean (some "0") (some "0") = .ok ("0.000000", "0.000000") :=
  ⟨rfl, rfl⟩

/-- **C3.** In the visit-update form with stage `Closing`, which extra
fields are presented as editable is decided by the contract outcome
stored on the existing bound instance, not by the newly submitted
outcome value: the configuration is identical for any two submitted
payloads; if the stored outcome is `Won` then `contract_amount` and
`is_payment_collected` get editable widgets and are not made required;
if the stored outcome is `Lost` then `reason_lost` gets an editable
widget. -/
theorem updateVisit_closing_stored_outcome (baseReq : UVField → Bool)
    (storedOutcome : Option String) (d₁ d₂ : UVField → Option String) :
    updateVisitInit baseReq (some "Closing") storedOutcome d₁ =
      updateVisitInit baseReq (some "Closing") storedOutcome d₂ ∧
    (storedOutcome = some "Won" →
      updateVisitInit baseReq (some "Closing") storedOutcome d₁
          UVField.contract_amount =
        ⟨false, .numberInput, none⟩ ∧
      updateVisitInit baseReq (some "Closing") storedOutcome d₁
          UVField.is_payment_collected =
        ⟨false, .checkboxInput, none⟩) ∧
    (storedOutcome = some "Lost" →
      updateVisitInit baseReq (some "Closing") storedOutcome d₁
          UVField.reason_lost =
        ⟨false, .textarea, none⟩) := by
  refine ⟨rfl, fun h => ?_, fun h => ?_⟩ <;> subst h
  · exact ⟨rfl, rfl⟩
  · rfl

/-- Witness for C3 at concrete inputs, for both stored outcomes. -/
theorem updateVisit_closing_stored_outcome_witness :
    (updateVisitInit (fun _ => true) (some "Closing") (some "Won")
        (fun _ => some "Lost") UVField.contract_amount =
      ⟨false, .numberInput, none⟩ ∧
    updateVisitInit (fun _ => true) (some "Closing") (some "Won")
        (fun _ => some "Lost") UVField.is_payment_collected =
      ⟨false, .checkboxInput, none⟩) ∧
    updateVisitInit (fun _ => true) (some "Closing") (some "Lost")
        (fun _ => some "Won") UVField.reason_lost =
      ⟨false, .textarea, none⟩ :=
  ⟨(updateVisit_closing_stored_outcome (fun _ => true) (some "Won")
      (fun _ => some "Lost") (fun _ => none)).2.1 rfl,
    (updateVisit_closing_stored_outcome (fun _ => true) (some "Lost")
      (fun _ => some "Won") (fun _ => none)).2.2 rfl⟩

/-- **C5.** In the visit-update form with stage `Closing`,
`contract_outcome` is required and its choices are restricted to exactly
`Won` and `Lost`; when the bound record has no stored outcome,
submitting a payload that leaves only `contract_outcome` blank yields
exactly one required-field error, attached to `contract_outcome`. -/
theorem updateVisit_closing_outcome_required (baseReq : UVField → Bool)
    (data : UVField → Option String)
    (hothers : ∀ f : UVField, f ≠ UVField.contract_outcome →
      isBlank (data f) = false)
    (hco : isBlank (data UVField.contract_outcome) = true) :
    (updateVisitInit baseReq (some "Closing") none data
        UVField.contract_outcome).required = true ∧
    (updateVisitInit baseReq (some "Closing") none data
        UVField.contract_outcome).choices = some ["Won", "Lost"] ∧
    uvRequiredErrors (updateVisitInit baseReq (some "Closing") none data)
        data = [UVField.contract_outcome] := by
  refine ⟨rfl, rfl, ?_⟩
  have h01 := hothers UVField.company_name (by decide)
  have h02 := hothers UVField.contact_person (by decide)
  have h03 := hothers UVField.contact_number (by decide)
  have h04 := hothers UVField.designation (by decide)
  have h05 := hothers UVField.latitude (by decide)
  have h06 := hothers UVField.longitude (by decide)
  have h07 := hothers UVField.item_discussed (by decide)
  have h08 := hothers UVField.meeting_stage (by decide)
  have h09 := hothers UVField.status (by decide)
  have h10 := hothers UVField.tag (by decide)
  have h11 := hothers UVField.client_budget (by decide)
  have h12 := hothers UVField.is_order_final (by decide)
  have h13 := hothers UVField.contract_amount (by decide)
  have h14 := hothers UVField.reason_lost (by decide)
  have h15 := hothers UVField.is_payment_collected (by decide)
  have hreq : (updateVisitInit baseReq (some "Closing") none data
      UVField.contract_outcome).required = true := rfl
  simp [uvRequiredErrors, UVField.all, List.filter_cons, List.filter_nil,
    h01, h02, h03, h04, h05, h06, h07, h08, h09, h10, h11, h12, h13, h14,
    h15, hco, hreq]

/-- Witness for C5 at a concrete input. -/
theorem updateVisit_closing_outcome_required_witness :
    (updateVisitInit (fun _ => true) (some "Closing") none
        (fun f => if f = UVField.contract_outcome then none else some "x")
        UVField.contract_outcome).required = true ∧
    (updateVisitInit (fun _ => true) (some "Closing") none
        (fun f => if f = UVField.contract_outcome then none else some "x")
        UVField.contract_outcome).choices = some ["Won", "Lost"] ∧
    uvRequiredErrors
        (updateVisitInit (fun _ => true) (some "Closing") none
          (fun f => if f = UVField.contract_outcome then none else some "x"))
        (fun f => if f = UVField.contract_outcome then none else some "x") =
      [UVField.contract_outcome] :=
  updateVisit_closing_outcome_required (fun _ => true)
    (fun f => if f = UVField.contract_outcome then none else some "x")
    (by decide) (by decide)

/-- **C6.** In the product-interested update form with stage `Closing`
and contract outcome `Lost`, the fields `final_order_amount` and
`payment_collected` are not required and get hidden widgets, excluding
them from normal rendering. -/
theorem updateProduct_closing_lost_suppressed (baseReq : PIField → Bool) :
    updateProductInterestedInit baseReq (some "Closing") (some "Lost")
        PIField.final_order_amount = ⟨false, .hiddenInput, none⟩ ∧
    updateProductInterestedInit baseReq (some "Closing") (some "Lost")
        PIField.payment_collected = ⟨false, .hiddenInput, none⟩ :=
  ⟨rfl, rfl⟩

/-- **C7.** In the product-interested update form with stage `Closing`
and contract outcome `Won`, `final_order_amount` is required: a payload
omitting it has a field error on `final_order_amount`, and a payload
providing decimal-parseable values for every present numeric field and a
value for every required field validates with no errors; meanwhile
`payment_collected` stays an ordinary, submittable number input that is
not required and not hidden server-side. -/
theorem updateProduct_closing_won_required (baseReq : PIField → Bool)
    (data : PIField → Option String) :
    (updateProductInterestedInit baseReq (some "Closing") (some "Won")
        PIField.final_order_amount).required = true ∧
    updateProductInterestedInit baseReq (some "Closing") (some "Won")
        PIField.payment_collected = ⟨false, .numberInput, none⟩ ∧
    (isBlank (data PIField.final_order_amount) = true →
      PIField.final_order_amount ∈ piFieldErrors
        (updateProductInterestedInit baseReq (some "Closing") (some "Won"))
        data) ∧
    ((∀ f : PIField,
        (updateProductInterestedInit baseReq (some "Closing") (some "Won")
          f).required = true → isBlank (data f) = false) →
      (∀ f : PIField, piNumericFields.contains f = true →
        isBlank (data f) = false →
        (parsePyDecimal ((data f).getD "")).isSome = true) →
      piFieldErrors
        (updateProductInterestedInit baseReq (some "Closing") (some "Won"))
        data = []) := by
  refine ⟨rfl, rfl, fun hblank => ?_, fun hreq hnum => ?_⟩
  · simp [piFieldErrors, PIField.all, hblank,
      show (updateProductInterestedInit baseReq (some "Closing")
        (some "Won") PIField.final_order_amount).required = true from rfl]
  · have hfin : isBlank (data PIField.final_order_amount) = false :=
      hreq PIField.final_order_amount rfl
    have hv : ∀ f : PIField, piNumericFields.contains f = true →
        isBlank (data f) = false →
        ¬ parsePyDecimal ((data f).getD "") = none := by
      intro f hf hb
      have hs := hnum f hf hb
      rcases Option.isSome_iff_exists.mp hs with ⟨v, hveq⟩
      simp [hveq]
    have hprod : ((updateProductInterestedInit baseReq (some "Closing")
        (some "Won") PIField.product_interested).required &&
        isBlank (data PIField.product_interested)) = false := by
      rcases hr : (updateProductInterestedInit baseReq (some "Closing")
          (some "Won") PIField.product_interested).required with _ | _
      · rfl
      · simp [hreq PIField.product_interested hr]
    simp only [piFieldErrors, PIField.all, piNumericFields,
      List.filter_cons, List.filter_nil]
    simp [hprod, hfin,
      show (updateProductInterestedInit baseReq (some "Closing")
        (some "Won") PIField.order_estimate).required = false from rfl,
      show (updateProductInterestedInit baseReq (some "Closing")
        (some "Won") PIField.payment_collected).required = false from rfl]
    have ho : ¬(isBlank (data PIField.order_estimate) = false ∧
        parsePyDecimal ((data PIField.order_estimate).getD "") = none) :=
      fun h => hv PIField.order_estimate rfl h.1 h.2
    have hf2 : ¬ parsePyDecimal ((data PIField.final_order_amount).getD "")
        = none := hv PIField.final_order_amount rfl hfin
    have hp : ¬(isBlank (data PIField.payment_collected) = false ∧
        parsePyDecimal ((data PIField.payment_collected).getD "") = none) :=
      fun h => hv PIField.payment_collected rfl h.1 h.2
    simp [ho, hf2, hp]

/-- Witness for C7 at a concrete input. -/
theorem updateProduct_closing_won_required_witness :
    (updateProductInterestedInit (fun _ => false) (some "Closing")
        (some "Won") PIField.final_order_amount).required = true ∧
    updateProductInterestedInit (fun _ => false) (some "Closing")
        (some "Won") PIField.payment_collected =
      ⟨false, .numberInput, none⟩ ∧
    (isBlank ((fun f => if f = PIField.final_order_amount then none
        else some "100") PIField.final_order_amount) = true →
      PIField.final_order_amount ∈ piFieldErrors
        (updateProductInterestedInit (fun _ => false) (some "Closing")
          (some "Won"))
        (fun f => if f = PIField.final_order_amount then none
          else some "100")) ∧
    ((∀ f : PIField,
        (updateProductInterestedInit (fun _ => false) (some "Closing")
          (some "Won") f).required = true →
        isBlank ((fun f => if f = PIField.final_order_amount then none
          else some "100") f) = false) →
      (∀ f : PIField, piNumericFields.contains f = true →
        isBlank ((fun f => if f = PIField.final_order_amount then none
          else some "100") f) = false →
        (parsePyDecimal (((fun f =>
          if f = PIField.final_order_amount then none
          else some "100") f).getD "")).isSome = true) →
      piFieldErrors
        (updateProductInterestedInit (fun _ => false) (some "Closing")
          (some "Won"))
        (fun f => if f = PIField.final_order_amount then none
          else some "100") = []) :=
  updateProduct_closing_won_required (fun _ => false)
    (fun f => if f = PIField.final_order_amount then none else some "100")

/-- **C8.** In the new-visit form, when a company is selected (the
submitted `company_name` parses to a nonzero id) the contact-person
choice set contains exactly the contacts whose company id equals the
selected id, ordered by contact name, with the `Select contact` label;
when no company is selected on an unbound form the choice set is empty
and carries the `Select company first` placeholder label. -/
theorem newVisit_contact_choices (contacts : List CustomerContact)
    (s : String) (cid : Int) (inst : Option Int)
    (hparse : parsePyInt s = some cid) (hcid : cid ≠ 0) :
    (∀ c : CustomerContact,
      c ∈ (newVisitInit contacts (some s) inst).queryset ↔
        c ∈ contacts ∧ (c.customer_id : Int) = cid) ∧
    List.Sorted contactLe (newVisitInit contacts (some s) inst).queryset ∧
    (newVisitInit contacts (some s) inst).empty_label = "Select contact" ∧
    newVisitInit contacts none none = ⟨[], "Select company first"⟩ := by
  have hs := parsePyInt_isEmpty_false s cid hparse
  have hq : newVisitInit contacts (some s) inst =
      ⟨(contacts.filter fun c => (c.customer_id : Int) == cid).insertionSort
        contactLe, "Select contact"⟩ := by
    simp [newVisitInit, optTruthy, hs, hparse, hcid]
  refine ⟨?_, ?_, ?_, rfl⟩
  · intro c
    rw [hq]
    simp [List.mem_insertionSort, List.mem_filter]
  · rw [hq]
    exact List.sorted_insertionSort contactLe _
  · rw [hq]

/-- Witness for C8 on a concrete three-row contact directory. -/
theorem newVisit_contact_choices_witness :
    ((⟨2, 1, "Ann"⟩ : CustomerContact) ∈
        (newVisitInit [⟨1, 1, "Zed"⟩, ⟨2, 1, "Ann"⟩, ⟨3, 2, "Bob"⟩]
          (some "1") none).queryset ↔
      (⟨2, 1, "Ann"⟩ : CustomerContact) ∈
          [(⟨1, 1, "Zed"⟩ : CustomerContact), ⟨2, 1, "Ann"⟩, ⟨3, 2, "Bob"⟩] ∧
        (((⟨2, 1, "Ann"⟩ : CustomerContact).customer_id : Int) = 1)) ∧
    List.Sorted contactLe
      (newVisitInit [⟨1, 1, "Zed"⟩, ⟨2, 1, "Ann"⟩, ⟨3, 2, "Bob"⟩]
        (some "1") none).queryset ∧
    (newVisitInit [⟨1, 1, "Zed"⟩, ⟨2, 1, "Ann"⟩, ⟨3, 2, "Bob"⟩]
      (some "1") none).empty_label = "Select contact" ∧
    newVisitInit [⟨1, 1, "Zed"⟩, ⟨2, 1, "Ann"⟩, ⟨3, 2, "Bob"⟩] none none =
      ⟨[], "Select company first"⟩ := by
  have h := newVisit_contact_choices
    [⟨1, 1, "Zed"⟩, ⟨2, 1, "Ann"⟩, ⟨3, 2, "Bob"⟩] "1" 1 none rfl (by decide)
  exact ⟨h.1 ⟨2, 1, "Ann"⟩, h.2.1, h.2.2.1, h.2.2.2⟩

/-- **C10.** For every submitted `company_name` value that is not
parseable as an integer, constructing the new-visit form does not raise
(the embedding is total, mirroring the `except (ValueError, TypeError):
pass`): on an unbound form the malformed value is treated the same as no
selection, leaving the contact-person choice set empty with the
`Select company first` label. -/
theorem newVisit_malformed_company (contacts : List CustomerContact)
    (s : String) (h : parsePyInt s = none) :
    newVisitInit contacts (some s) none = ⟨[], "Select company first"⟩ := by
  rcases hb : s.isEmpty with _ | _
  · simp [newVisitInit, optTruthy, hb, h]
  · simp [newVisitInit, optTruthy, hb]

/-- Witness for C10 at a concrete malformed value. -/
theorem newVisit_malformed_company_witness :
    newVisitInit [⟨1, 1, "Zed"⟩, ⟨2, 1, "Ann"⟩, ⟨3, 2, "Bob"⟩]
      (some "abc") none = ⟨[], "Select company first"⟩ :=
  newVisit_malformed_company [⟨1, 1, "Zed"⟩, ⟨2, 1, "Ann"⟩, ⟨3, 2, "Bob"⟩]
    "abc" rfl
